import Mathlib

/-!
Verification of the goblimey/grpc secure greeter example.

The Go sources are shallowly embedded:
* `scanAuthHeaders` / `validateOAUTHToken` / `ValidationOAUTHToken` embed the
  server's authorization-header scan (`src/secure_greeter_server/main.go`),
  keeping the loop body's nesting of the token comparison inside the
  verbose-flag check exactly as written.
* `OAuthUnaryInterceptor` embeds the unary server interceptor: metadata
  lookup, token validation, and the hand-off to the next handler.
* `SayHello` embeds the greeter handler.
* `serverMain` embeds the startup sequence of `main` as a trace of events
  (listen, fatal log, key-pair load, serve).
* `clientName` embeds the secure greeter client's choice of the name sent
  in the request.
-/

namespace GrpcGreeter

/-- The hard-wired token expected by `validateOAUTHToken`
(`src/secure_greeter_server/main.go`, first variant). -/
def expectedToken : String := "Bearer rTO69tZATgSqamjQn7v9HA"

/-- The hard-wired token expected by `ValidationOAUTHToken`
(second server variant in the same file). -/
def expectedToken2 : String := "Bearer rTO69tZATSgSqamjQn7v9HA"

/-- The loop body of the server's token scan, as written in the source:
for each header the token comparison sits INSIDE the `if *verbose` block,
so with verbose off no header is ever compared. A match returns user id 2;
falling off the loop returns the fixed error string. -/
def scanAuthHeaders (verbose : Bool) (expected : String) :
    List String → Except String Nat
  | [] => Except.error "no valid authorization header"
  | h :: rest =>
      if verbose then
        if h = expected then Except.ok 2
        else scanAuthHeaders verbose expected rest
      else scanAuthHeaders verbose expected rest

/-- `validateOAUTHToken` from the first server variant. -/
def validateOAUTHToken (verbose : Bool) (authHeaders : List String) :
    Except String Nat :=
  scanAuthHeaders verbose expectedToken authHeaders

/-- `ValidationOAUTHToken` from the second server variant. -/
def ValidationOAUTHToken (verbose : Bool) (authHeaders : List String) :
    Except String Nat :=
  scanAuthHeaders verbose expectedToken2 authHeaders

/-- gRPC status codes used by the server (only `Unauthenticated` occurs). -/
inductive StatusCode where
  | ok
  | unauthenticated
deriving DecidableEq, Repr

/-- A gRPC error status: code plus message, as built by `grpc.Errorf`. -/
structure GrpcStatus where
  code : StatusCode
  msg : String
deriving DecidableEq, Repr

/-- Call metadata: a map from keys to slices of values, as in
`google.golang.org/grpc/metadata`. -/
structure CallMetadata where
  entries : List (String × List String)
deriving DecidableEq, Repr

/-- `md[key]` on a Go map of slices: the associated slice, or the nil
slice (here `[]`) when the key is absent. -/
def CallMetadata.get (md : CallMetadata) (key : String) : List String :=
  match md.entries.lookup key with
  | some vs => vs
  | none => []

/-- The `HelloRequest` message: one `name` field. -/
structure HelloRequest where
  name : String
deriving DecidableEq, Repr

/-- The `HelloReply` message: one `message` field. -/
structure HelloReply where
  message : String
deriving DecidableEq, Repr

/-- `server.SayHello`: returns `"Hello " + in.Name` and a nil error. -/
def SayHello (req : HelloRequest) : Except GrpcStatus HelloReply :=
  Except.ok { message := "Hello " ++ req.name }

/-- `OAuthUnaryInterceptor`: fails Unauthenticated when the context holds
no metadata; otherwise validates `md["authorization"]`, failing
Unauthenticated with the wrapped reason on error, and on success passes
the user id (the value placed in the call context) and the request to the
next handler, returning its result. -/
def OAuthUnaryInterceptor (verbose : Bool) (md : Option CallMetadata)
    (req : HelloRequest)
    (handler : Nat → HelloRequest → Except GrpcStatus HelloReply) :
    Except GrpcStatus HelloReply :=
  match md with
  | none =>
      Except.error { code := StatusCode.unauthenticated,
                     msg := "no metadata in context" }
  | some m =>
      match validateOAUTHToken verbose (m.get "authorization") with
      | Except.error e =>
          Except.error { code := StatusCode.unauthenticated,
                         msg := "authentication failed - " ++ e }
      | Except.ok uid => handler uid req

/-- One step of the server's startup, recorded as an event. -/
inductive StartupEvent where
  | listenOpened
  | fatal (msg : String)
  | loadX509KeyPair (cert key : String)
  | serve
deriving DecidableEq, Repr

/-- The environment `main` runs in: whether `net.Listen` succeeds, and
which files exist on disk (what `os.Stat` finds). -/
structure World where
  listenOk : Bool
  existingFiles : List String
deriving DecidableEq, Repr

/-- The server's command-line flags relevant to startup. -/
structure ServerFlags where
  certfile : String
  keyfile : String
deriving DecidableEq, Repr

/-- The startup sequence of the server's `main`, as the trace of events it
produces (a `fatal` event ends the trace, as `log.Fatalf` exits the
process). The source listens FIRST, then checks the flag strings, then
stats the key file, then the cert file, then loads the key pair and
serves. -/
def serverMain (w : World) (f : ServerFlags) : List StartupEvent :=
  if ¬ w.listenOk then [StartupEvent.fatal "failed to listen"]
  else
    StartupEvent.listenOpened ::
      (if f.certfile.length = 0 ∨ f.keyfile.length = 0 then
        [StartupEvent.fatal "you must specify the cert file and the key file"]
      else if f.keyfile ∉ w.existingFiles then
        [StartupEvent.fatal ("cannot open the key file " ++ f.keyfile)]
      else if f.certfile ∉ w.existingFiles then
        [StartupEvent.fatal ("cannot open the cert file " ++ f.certfile)]
      else
        [StartupEvent.loadX509KeyPair f.certfile f.keyfile,
         StartupEvent.serve])

/-- The secure greeter client's default name. -/
def defaultName : String := "world"

/-- `flag.Arg(i)`: the i-th positional argument, or `""` out of range. -/
def flagArg (args : List String) (i : Nat) : String :=
  (args.get? i).getD ""

/-- The name the secure greeter client sends: `defaultName`, overridden by
`flag.Arg(1)` only when there are more than one positional arguments. -/
def clientName (args : List String) : String :=
  if args.length > 1 then flagArg args 1 else defaultName

/-- With the verbose flag off, the scan loop never compares a header and
always falls through to the fixed error. -/
theorem scanAuthHeaders_false (e : String) (l : List String) :
    scanAuthHeaders false e l = Except.error "no valid authorization header" := by
  induction l with
  | nil => rfl
  | cons h t ih => simpa [scanAuthHeaders] using ih

/-- Characterization of the scan loop: it accepts (with user id 2) exactly
when the verbose flag is set AND the expected token occurs in the list;
otherwise it returns the fixed error. -/
theorem scanAuthHeaders_eq (v : Bool) (e : String) (l : List String) :
    scanAuthHeaders v e l =
      if v = true ∧ e ∈ l then Except.ok 2
      else Except.error "no valid authorization header" := by
  cases v with
  | false => simpa using scanAuthHeaders_false e l
  | true =>
      induction l with
      | nil => simp [scanAuthHeaders]
      | cons h t ih =>
          by_cases he : h = e
          · subst he
            simp [scanAuthHeaders]
          · have hne : ¬ e = h := fun hh => he hh.symm
            simp [scanAuthHeaders, ih, hne, he]

/-- C1: the claim says `validateOAUTHToken` accepts iff some header value
exactly equals the expected bearer string. The code violates this: the
token comparison is nested inside the verbose-flag check, so with verbose
off (the default) even the exact expected token is rejected; both
variants (`validateOAUTHToken` and `ValidationOAUTHToken`) reject their
own hard-wired token. -/
theorem validate_rejects_valid_token_when_not_verbose :
    validateOAUTHToken false [expectedToken]
        = Except.error "no valid authorization header"
    ∧ ValidationOAUTHToken false [expectedToken2]
        = Except.error "no valid authorization header" :=
  ⟨rfl, rfl⟩

/-- C2: the claim says the accept/reject outcome of `validateOAUTHToken`
is the same for verbose on and off. The code violates this: on the list
holding exactly the expected token, verbose on accepts (user id 2) and
verbose off rejects. -/
theorem validate_outcome_depends_on_verbose :
    validateOAUTHToken true [expectedToken] = Except.ok 2
    ∧ validateOAUTHToken false [expectedToken]
        = Except.error "no valid authorization header" := by
  constructor
  · simp [validateOAUTHToken, scanAuthHeaders]
  · rfl

/-- C3: for every call whose authorization values all differ from the
expected bearer string, the interceptor returns an Unauthenticated error
and the result does not depend on the handler (the handler is never
invoked). -/
theorem wrong_credential_rejected (verbose : Bool) (md : CallMetadata)
    (req : HelloRequest)
    (h1 h2 : Nat → HelloRequest → Except GrpcStatus HelloReply)
    (hno : ∀ v ∈ md.get "authorization", v ≠ expectedToken) :
    OAuthUnaryInterceptor verbose (some md) req h1
        = Except.error { code := StatusCode.unauthenticated,
                         msg := "authentication failed - no valid authorization header" }
    ∧ OAuthUnaryInterceptor verbose (some md) req h1
        = OAuthUnaryInterceptor verbose (some md) req h2 := by
  have hmem : expectedToken ∉ md.get "authorization" :=
    fun hm => hno _ hm rfl
  have hv : validateOAUTHToken verbose (md.get "authorization")
      = Except.error "no valid authorization header" := by
    rw [validateOAUTHToken, scanAuthHeaders_eq]
    simp [hmem]
  refine ⟨?_, ?_⟩ <;> simp [OAuthUnaryInterceptor, hv]

/-- Witness for C3: the concrete credential "Bearer WRONG" is rejected
with an Unauthenticated status. -/
theorem wrong_credential_rejected_witness :
    OAuthUnaryInterceptor false
        (some { entries := [("authorization", ["Bearer WRONG"])] })
        { name := "world" } (fun _ r => SayHello r)
      = Except.error { code := StatusCode.unauthenticated,
                       msg := "authentication failed - no valid authorization header" } :=
  (wrong_credential_rejected false
      { entries := [("authorization", ["Bearer WRONG"])] }
      { name := "world" } (fun _ r => SayHello r)
      (fun _ _ => Except.ok { message := "" }) (by decide)).1

/-- C4: for every name `n`, `SayHello` returns exactly `"Hello " ++ n`
with a nil error; as a pure function it is deterministic, idempotent and
side-effect free. -/
theorem sayHello_exact (n : String) :
    SayHello { name := n } = Except.ok { message := "Hello " ++ n } :=
  rfl

/-- Counterexample to C5: with a non-existent certificate path the
startup trace opens the listening socket FIRST and only then hits the
fatal certificate check, so partial listener state does exist at the
point of failure. -/
theorem startup_listener_opened_before_cert_failure :
    serverMain { listenOk := true, existingFiles := ["selfsigned.key"] }
        { certfile := "missing.crt", keyfile := "selfsigned.key" }
      = [StartupEvent.listenOpened,
         StartupEvent.fatal "cannot open the cert file missing.crt"]
    ∧ StartupEvent.listenOpened
        ∈ serverMain { listenOk := true, existingFiles := ["selfsigned.key"] }
            { certfile := "missing.crt", keyfile := "selfsigned.key" } := by
  constructor
  · decide
  · decide

/-- C5 (amended): with a non-existent certificate path (and a successful
listen), startup fails with a fatal error before the key pair is loaded
and before serving begins, but AFTER the listening socket is opened: the
trace is exactly listen-then-fatal. -/
theorem startup_missing_cert_fails_before_load (w : World) (f : ServerFlags)
    (hl : w.listenOk = true) (hc : f.certfile ∉ w.existingFiles) :
    ∃ msg, serverMain w f
        = [StartupEvent.listenOpened, StartupEvent.fatal msg]
      ∧ StartupEvent.serve ∉ serverMain w f
      ∧ ∀ c k, StartupEvent.loadX509KeyPair c k ∉ serverMain w f := by
  have hmain : ∃ msg, serverMain w f
      = [StartupEvent.listenOpened, StartupEvent.fatal msg] := by
    by_cases h1 : f.certfile.length = 0 ∨ f.keyfile.length = 0
    · exact ⟨"you must specify the cert file and the key file",
        by simp [serverMain, hl, h1]⟩
    · by_cases h2 : f.keyfile ∉ w.existingFiles
      · exact ⟨"cannot open the key file " ++ f.keyfile,
          by simp [serverMain, hl, h1, h2]⟩
      · exact ⟨"cannot open the cert file " ++ f.certfile,
          by simp [serverMain, hl, h1, h2, hc]⟩
  obtain ⟨msg, hmsg⟩ := hmain
  refine ⟨msg, hmsg, ?_, ?_⟩
  · rw [hmsg]; simp
  · intro c k; rw [hmsg]; simp

/-- Witness for C5 (amended): concrete world and flags with a missing
certificate file. -/
theorem startup_missing_cert_fails_before_load_witness :
    ∃ msg, serverMain { listenOk := true, existingFiles := ["k.key"] }
        { certfile := "missing.crt", keyfile := "k.key" }
        = [StartupEvent.listenOpened, StartupEvent.fatal msg]
      ∧ StartupEvent.serve
          ∉ serverMain { listenOk := true, existingFiles := ["k.key"] }
              { certfile := "missing.crt", keyfile := "k.key" }
      ∧ ∀ c k, StartupEvent.loadX509KeyPair c k
          ∉ serverMain { listenOk := true, existingFiles := ["k.key"] }
              { certfile := "missing.crt", keyfile := "k.key" } :=
  startup_missing_cert_fails_before_load
    { listenOk := true, existingFiles := ["k.key"] }
    { certfile := "missing.crt", keyfile := "k.key" } rfl (by decide)

/-- C6: if the certificate or key path is empty, or either named file
does not exist, startup (after a successful listen) ends in a fatal
error and the key pair is never loaded: the checks happen before
LoadX509KeyPair. -/
theorem startup_config_checked_before_load (w : World) (f : ServerFlags)
    (hl : w.listenOk = true)
    (hbad : f.certfile = "" ∨ f.keyfile = ""
      ∨ f.certfile ∉ w.existingFiles ∨ f.keyfile ∉ w.existingFiles) :
    (∃ msg, serverMain w f
        = [StartupEvent.listenOpened, StartupEvent.fatal msg])
    ∧ ∀ c k, StartupEvent.loadX509KeyPair c k ∉ serverMain w f := by
  have hmain : ∃ msg, serverMain w f
      = [StartupEvent.listenOpened, StartupEvent.fatal msg] := by
    by_cases h1 : f.certfile.length = 0 ∨ f.keyfile.length = 0
    · exact ⟨"you must specify the cert file and the key file",
        by simp [serverMain, hl, h1]⟩
    · by_cases h2 : f.keyfile ∉ w.existingFiles
      · exact ⟨"cannot open the key file " ++ f.keyfile,
          by simp [serverMain, hl, h1, h2]⟩
      · by_cases h3 : f.certfile ∉ w.existingFiles
        · exact ⟨"cannot open the cert file " ++ f.certfile,
            by simp [serverMain, hl, h1, h2, h3]⟩
        · exfalso
          rcases not_or.mp h1 with ⟨hc1, hk1⟩
          rcases hbad with hb | hb | hb | hb
          · exact hc1 (by rw [hb]; rfl)
          · exact hk1 (by rw [hb]; rfl)
          · exact h3 hb
          · exact h2 hb
  obtain ⟨msg, hmsg⟩ := hmain
  refine ⟨⟨msg, hmsg⟩, ?_⟩
  intro c k; rw [hmsg]; simp

/-- Witness for C6: empty certificate path with an empty key path. -/
theorem startup_config_checked_before_load_witness :
    (∃ msg, serverMain { listenOk := true, existingFiles := [] }
        { certfile := "", keyfile := "" }
        = [StartupEvent.listenOpened, StartupEvent.fatal msg])
    ∧ ∀ c k, StartupEvent.loadX509KeyPair c k
        ∉ serverMain { listenOk := true, existingFiles := [] }
            { certfile := "", keyfile := "" } :=
  startup_config_checked_before_load
    { listenOk := true, existingFiles := [] }
    { certfile := "", keyfile := "" } rfl (Or.inl rfl)

/-- C7: when the call's metadata is absent, or present but without any
value under the authorization key, the interceptor fails with an
Unauthenticated status. -/
theorem missing_authorization_unauthenticated (verbose : Bool)
    (md : Option CallMetadata) (req : HelloRequest)
    (handler : Nat → HelloRequest → Except GrpcStatus HelloReply)
    (h : md = none ∨ ∃ m, md = some m ∧ m.get "authorization" = []) :
    ∃ msg, OAuthUnaryInterceptor verbose md req handler
      = Except.error { code := StatusCode.unauthenticated, msg := msg } := by
  rcases h with h | ⟨m, hm, hget⟩
  · subst h
    exact ⟨"no metadata in context", rfl⟩
  · subst hm
    refine ⟨"authentication failed - no valid authorization header", ?_⟩
    simp [OAuthUnaryInterceptor, hget, validateOAUTHToken, scanAuthHeaders]

/-- Witness for C7: metadata present but with no authorization entry. -/
theorem missing_authorization_unauthenticated_witness :
    ∃ msg, OAuthUnaryInterceptor false (some { entries := [] })
        { name := "world" } (fun _ r => SayHello r)
      = Except.error { code := StatusCode.unauthenticated, msg := msg } :=
  missing_authorization_unauthenticated false (some { entries := [] })
    { name := "world" } (fun _ r => SayHello r)
    (Or.inr ⟨{ entries := [] }, rfl, rfl⟩)

/-- C8: permuting the authorization header values never changes the
result of `validateOAUTHToken` (in particular not the accept/reject
outcome), and every accepted call yields the single user id 2. -/
theorem validate_perm_invariant (verbose : Bool) (l l' : List String)
    (hp : l.Perm l') :
    validateOAUTHToken verbose l = validateOAUTHToken verbose l'
    ∧ ∀ uid, validateOAUTHToken verbose l = Except.ok uid → uid = 2 := by
  constructor
  · simp only [validateOAUTHToken, scanAuthHeaders_eq, hp.mem_iff]
  · intro uid h
    rw [validateOAUTHToken, scanAuthHeaders_eq] at h
    by_cases hcond : verbose = true ∧ expectedToken ∈ l
    · rw [if_pos hcond] at h
      injection h with h
      exact h.symm
    · rw [if_neg hcond] at h
      exact absurd h (by simp)

/-- Witness for C8: swapping the two headers of a concrete list. -/
theorem validate_perm_invariant_witness :
    validateOAUTHToken true ["x", expectedToken]
        = validateOAUTHToken true [expectedToken, "x"]
    ∧ ∀ uid, validateOAUTHToken true ["x", expectedToken] = Except.ok uid
        → uid = 2 :=
  validate_perm_invariant true ["x", expectedToken] [expectedToken, "x"]
    (List.Perm.swap expectedToken "x" [])

/-- C9: every failure of `validateOAUTHToken` carries the one fixed
reason string, independent of the supplied header values. -/
theorem failure_reason_fixed (verbose : Bool) (l : List String) (e : String)
    (h : validateOAUTHToken verbose l = Except.error e) :
    e = "no valid authorization header" := by
  rw [validateOAUTHToken, scanAuthHeaders_eq] at h
  by_cases hcond : verbose = true ∧ expectedToken ∈ l
  · rw [if_pos hcond] at h
    exact absurd h (by simp)
  · rw [if_neg hcond] at h
    injection h with h
    exact h.symm

/-- Witness for C9: the failure on a concrete wrong header carries the
fixed reason string. -/
theorem failure_reason_fixed_witness :
    validateOAUTHToken false ["Bearer WRONG"]
        = Except.error "no valid authorization header"
    ∧ "no valid authorization header" = "no valid authorization header" :=
  ⟨rfl, failure_reason_fixed false ["Bearer WRONG"]
    "no valid authorization header" rfl⟩

/-- C10: the client sends the default name "world" unless more than one
positional argument is supplied, in which case it sends the second one
(flag.Arg(1)); a single positional argument is ignored. -/
theorem client_name_selection (args : List String) :
    (args.length ≤ 1 → clientName args = "world")
    ∧ ∀ h : 1 < args.length, clientName args = args.get ⟨1, h⟩ := by
  constructor
  · intro hle
    rw [clientName, if_neg (by omega)]
    rfl
  · intro h
    rw [clientName, if_pos h, flagArg, List.get?_eq_get h]
    rfl

/-- Witness for C10: one positional argument is ignored; with two, the
second is the name. -/
theorem client_name_selection_witness :
    clientName ["alpha"] = "world" ∧ clientName ["alpha", "beta"] = "beta" :=
  ⟨(client_name_selection ["alpha"]).1 (by decide),
   (client_name_selection ["alpha", "beta"]).2 (by decide)⟩

end GrpcGreeter
